import Mathlib

/-!
Verification of the hot-reload core of baseplate.go: the directory watcher
(`directorywatcher/directorywatcher.go`) and the secrets store
(`secrets/store.go`, `secrets/config.go`).

Modelling choices. The watcher's goroutine loops over a Go `select` on three
channels (context cancellation, the fsnotify error channel, the fsnotify event
channel); we embed one run of the loop as the consumption of a finite list of
messages, listed in the order the `select` happened to pick them. Handler and
middleware side effects are embedded as traces: a handler maps the value it is
given to the list of effects it performs, so a composed chain's behaviour is
the trace it emits. Fallible Go functions returning `(T, error)` become
`Except`-valued Lean functions; external collaborators (fsnotify construction,
`NewSecrets`, `filewatcher.New`) are universally quantified parameters with
the result type the Go code pattern-matches on.
-/

namespace Directorywatcher

/-- Operation carried by an fsnotify.v1 event; `chmod` is the operation the
loop's `default` branch receives. -/
inductive Op
  | create
  | write
  | remove
  | rename
  | chmod
  deriving DecidableEq

/-- An fsnotify event: operation plus affected path (`ev.Op`, `ev.Name`). -/
structure Event where
  op : Op
  name : String
  deriving DecidableEq

/-- Result type of the Go handlers `OnCreate`/`OnRemove`: they return an
`error`, modelled as `Except` over the error message. -/
def HandlerFn := String → Except String Unit

/-- One message the loop's `select` can receive: context cancellation
(`<-w.ctx.Done()`, which `Stop`'s `cancel()` triggers), a watcher error
(`<-watcher.Errors`), or a filesystem event (`<-watcher.Events`). -/
inductive Msg
  | ctxDone
  | watchErr (e : String)
  | fsEvent (ev : Event)

/-- An observable handler invocation made by the loop, recording which handler
ran and the path it was given. -/
inductive Call
  | onCreate (path : String)
  | onRemove (path : String)
  deriving DecidableEq

/-- Observable outcome of a run of the watcher loop: the handler invocations
made, the log lines emitted, and whether `watcher.Close()` was reached. -/
structure LoopOut where
  calls : List Call
  log : List String
  closed : Bool
  deriving DecidableEq

/-- The `switch ev.Op` dispatch inside `watcherLoop`: Create/Write invoke
`onCreate(ev.Name)`, Remove/Rename invoke `onRemove(ev.Name)`, the default
branch does nothing; a handler error is logged. Returns the invocations made
and the log lines emitted for this one event. -/
def processEvent (onCreate onRemove : HandlerFn) (ev : Event) :
    List Call × List String :=
  match ev.op with
  | .create | .write =>
      ([Call.onCreate ev.name],
        match onCreate ev.name with
        | .ok _ => []
        | .error e => ["directorywatcher: create handler error: " ++ e])
  | .remove | .rename =>
      ([Call.onRemove ev.name],
        match onRemove ev.name with
        | .ok _ => []
        | .error e => ["directorywatcher: remove handler error: " ++ e])
  | .chmod => ([], [])

/-- The `for { select { ... } }` loop of `(*directoryWatcher).watcherLoop`,
run over the finite list of messages the select delivered: cancellation
closes the watcher and returns, a watcher error is logged and the loop
continues, an event is dispatched through `processEvent` and the loop
continues. -/
def watcherLoop (onCreate onRemove : HandlerFn) : List Msg → LoopOut
  | [] => ⟨[], [], false⟩
  | Msg.ctxDone :: _ => ⟨[], [], true⟩
  | Msg.watchErr e :: rest =>
      let r := watcherLoop onCreate onRemove rest
      ⟨r.calls, ("directorywatcher: watcher error: " ++ e) :: r.log, r.closed⟩
  | Msg.fsEvent ev :: rest =>
      let p := processEvent onCreate onRemove ev
      let r := watcherLoop onCreate onRemove rest
      ⟨p.1 ++ r.calls, p.2 ++ r.log, r.closed⟩

/-- `directorywatcher.New`: `fsnotify.NewWatcher()` may fail (nil handle, its
error returned, no goroutine started); then `fsWatcher.Add(cfg.Path)` may fail
(its error returned, no goroutine started); otherwise the watcher loop
goroutine is started and a handle is returned. `newWatcher` and `addPath`
stand for the two external fsnotify calls; the Bool records whether the
background goroutine was started. -/
def New {W H E : Type} (newWatcher : Except E W) (addPath : W → Except E Unit)
    (mkHandle : W → H) : Except E H × Bool :=
  match newWatcher with
  | .error e => (.error e, false)
  | .ok w =>
      match addPath w with
      | .error e => (.error e, false)
      | .ok _ => (.ok (mkHandle w), true)

end Directorywatcher

namespace Secrets

/-- The `Provider` enum of `secrets/config.go` (`VaultProvider`,
`VaultCsiProvider`). -/
inductive Provider
  | vaultProvider
  | vaultCsiProvider
  deriving DecidableEq

/-- The `secrets.Config` struct: `Path` and the `Provider` string. -/
structure Config where
  path : String
  provider : String
  deriving DecidableEq

/-- The `(c Config) getProvider()` method: "vault" and "vault_csi" resolve;
every other string (the empty string included) falls to `default` and returns
the error naming the allowed set. -/
def Config.getProvider (c : Config) : Except String Provider :=
  match c.provider with
  | "vault" => .ok Provider.vaultProvider
  | "vault_csi" => .ok Provider.vaultCsiProvider
  | _ => .error ("unknown secret provider " ++ c.provider ++
      ", must be one of ['vault', 'vault_csi']")

/-- The `InitFromConfig` function: it wraps the context with a timeout and
calls `NewStore(ctx, cfg.Path, ...)` directly; `newStore` stands for that
external call, which receives only the path — `cfg.Provider` is never read
and `getProvider` is never called. -/
def InitFromConfig {E S : Type} (newStore : String → Except E S) (cfg : Config) :
    Except E S :=
  newStore cfg.path

/-- `SecretHandlerFunc` from `secrets/store.go`, a callback on the parsed
secrets; its side effects are embedded as the trace (list) of effects it
performs on the given value. -/
def SecretHandlerFunc (S E : Type) := S → List E

/-- `SecretMiddleware`: wraps the next handler into a new handler. -/
def SecretMiddleware (S E : Type) := SecretHandlerFunc S E → SecretHandlerFunc S E

/-- `nopSecretHandlerFunc`: the base of every chain, does nothing. -/
def nopSecretHandlerFunc {S E : Type} : SecretHandlerFunc S E := fun _ => []

/-- The `secretHandler` method: `for _, m := range middlewares {
s.secretHandlerFunc = m(s.secretHandlerFunc) }`, i.e. a left fold wrapping the
current chain `h` with each middleware in registration order. -/
def secretHandler {S E : Type} (h : SecretHandlerFunc S E)
    (middlewares : List (SecretMiddleware S E)) : SecretHandlerFunc S E :=
  middlewares.foldl (fun acc m => m acc) h

/-- The mutable state of a `store` that the claims observe: the last good
parsed value held by the filewatcher (`watcher.Get()`, read by `getSecrets`)
and the current `secretHandlerFunc` chain. -/
structure StoreModel (S E : Type) where
  snapshot : S
  secretHandlerFunc : SecretHandlerFunc S E

/-- The `(*store) parser` method: run `NewSecrets` on the reader's content; on
error return the error (the chain is not touched), on success invoke the
current chain on the freshly parsed value and return it. The pair's second
component is the trace of chain effects performed by this call. -/
def parser {I S E Err : Type} (newSecrets : I → Except Err S)
    (handler : SecretHandlerFunc S E) (r : I) : Except Err S × List E :=
  match newSecrets r with
  | .error e => (.error e, [])
  | .ok s => (.ok s, handler s)

/-- The `(*store) AddMiddlewares` method: `s.secretHandler(middlewares...)`
then `s.secretHandlerFunc(s.getSecrets())` — extend the chain, then invoke the
new chain on the current snapshot. Returns the updated store state and the
trace of that immediate invocation. -/
def AddMiddlewares {S E : Type} (st : StoreModel S E)
    (middlewares : List (SecretMiddleware S E)) : StoreModel S E × List E :=
  let newHandler := secretHandler st.secretHandlerFunc middlewares
  (⟨st.snapshot, newHandler⟩, newHandler st.snapshot)

/-- Payload type of `GetSimpleSecret` (defined outside the watcher files; its
contents are irrelevant to the claims). -/
structure SimpleSecret where
  deriving DecidableEq

/-- Payload type of `GetVersionedSecret`. -/
structure VersionedSecret where
  deriving DecidableEq

/-- Payload type of `GetCredentialSecret`. -/
structure CredentialSecret where
  deriving DecidableEq

/-- Payload type of `GetVault`. -/
structure Vault where
  deriving DecidableEq

/-- Outcome of calling a store operation in Go: a normal return, an `error`
return, or a `panic` (which crashes the process unless recovered). -/
inductive OpOutcome (A : Type)
  | ok (a : A)
  | err (e : String)
  | panicked (msg : String)
  deriving DecidableEq

/-- True exactly when the outcome is a caller-facing `error` return. -/
def OpOutcome.isErr {A : Type} : OpOutcome A → Bool
  | .err _ => true
  | _ => false

/-- `(*vaultCsiStore) AddMiddlewares`: `panic("implement me")`. -/
def vaultCsiAddMiddlewares (S E : Type)
    (middlewares : List (SecretMiddleware S E)) : OpOutcome Unit :=
  .panicked "implement me"

/-- `(*vaultCsiStore) GetSimpleSecret`: `panic("implement me")`. -/
def vaultCsiGetSimpleSecret (path : String) : OpOutcome SimpleSecret :=
  .panicked "implement me"

/-- `(*vaultCsiStore) GetVersionedSecret`: `panic("implement me")`. -/
def vaultCsiGetVersionedSecret (path : String) : OpOutcome VersionedSecret :=
  .panicked "implement me"

/-- `(*vaultCsiStore) GetCredentialSecret`: `panic("implement me")`. -/
def vaultCsiGetCredentialSecret (path : String) : OpOutcome CredentialSecret :=
  .panicked "implement me"

/-- `(*vaultCsiStore) GetVault`: `panic("implement me")`. -/
def vaultCsiGetVault : OpOutcome Vault :=
  .panicked "implement me"

end Secrets

namespace Directorywatcher


/-- Claim C1: for every filesystem event processed by the watcher loop, a
Create or Write operation invokes `onCreate` with the event's path, a Remove
or Rename operation invokes `onRemove` with the event's path, and any other
operation invokes neither handler; the loop records exactly these invocations
for the event and then continues with the remaining messages. -/
theorem claim_C1_event_dispatch (onCreate onRemove : HandlerFn) (ev : Event)
    (rest : List Msg) :
    ((processEvent onCreate onRemove ev).1 =
      if ev.op = Op.create ∨ ev.op = Op.write then [Call.onCreate ev.name]
      else if ev.op = Op.remove ∨ ev.op = Op.rename then [Call.onRemove ev.name]
      else [])
    ∧ (watcherLoop onCreate onRemove (Msg.fsEvent ev :: rest)).calls =
        (processEvent onCreate onRemove ev).1 ++
          (watcherLoop onCreate onRemove rest).calls := by
  constructor
  · cases ev with
    | mk op name =>
        cases op <;> simp [processEvent]
  · simp [watcherLoop]

/-- Claim C6: if the handler invoked for an event returns an error, the loop
logs exactly one handler-error line for it, the handler is invoked exactly
once (never retried), and the loop goes on to
process the remaining messages exactly as it would have without the failure:
same further calls, same further log, same termination status, and no error is
ever returned to the watcher's caller (the loop's outcome carries none). -/
theorem claim_C6_handler_error_nonfatal (onCreate onRemove : HandlerFn)
    (ev : Event) (e : String) (rest : List Msg)
    (h : ((ev.op = Op.create ∨ ev.op = Op.write) ∧
            onCreate ev.name = Except.error e)
       ∨ ((ev.op = Op.remove ∨ ev.op = Op.rename) ∧
            onRemove ev.name = Except.error e)) :
    ((processEvent onCreate onRemove ev).2 =
        ["directorywatcher: create handler error: " ++ e]
      ∨ (processEvent onCreate onRemove ev).2 =
        ["directorywatcher: remove handler error: " ++ e])
    ∧ (processEvent onCreate onRemove ev).1.length = 1
    ∧ (watcherLoop onCreate onRemove (Msg.fsEvent ev :: rest)).calls =
        (processEvent onCreate onRemove ev).1 ++
          (watcherLoop onCreate onRemove rest).calls
    ∧ (watcherLoop onCreate onRemove (Msg.fsEvent ev :: rest)).log =
        (processEvent onCreate onRemove ev).2 ++
          (watcherLoop onCreate onRemove rest).log
    ∧ (watcherLoop onCreate onRemove (Msg.fsEvent ev :: rest)).closed =
        (watcherLoop onCreate onRemove rest).closed := by
  obtain ⟨op, name⟩ := ev
  refine ⟨?_, ?_, by simp [watcherLoop], by simp [watcherLoop],
    by simp [watcherLoop]⟩
  · rcases h with ⟨hop, herr⟩ | ⟨hop, herr⟩ <;>
      rcases hop with hop | hop <;>
        simp_all [processEvent]
  · rcases h with ⟨hop, herr⟩ | ⟨hop, herr⟩ <;>
      rcases hop with hop | hop <;>
        simp_all [processEvent]

/-- Witness for C6 at a concrete failing create handler. -/
theorem claim_C6_witness :
    ((processEvent (fun _ => Except.error "boom") (fun _ => Except.ok ())
        ⟨Op.create, "f1"⟩).2 =
        ["directorywatcher: create handler error: " ++ "boom"]
      ∨ (processEvent (fun _ => Except.error "boom") (fun _ => Except.ok ())
        ⟨Op.create, "f1"⟩).2 =
        ["directorywatcher: remove handler error: " ++ "boom"])
    ∧ (processEvent (fun _ => Except.error "boom") (fun _ => Except.ok ())
        ⟨Op.create, "f1"⟩).1.length = 1
    ∧ (watcherLoop (fun _ => Except.error "boom") (fun _ => Except.ok ())
        (Msg.fsEvent ⟨Op.create, "f1"⟩ :: [])).calls =
        (processEvent (fun _ => Except.error "boom") (fun _ => Except.ok ())
          ⟨Op.create, "f1"⟩).1 ++
          (watcherLoop (fun _ => Except.error "boom") (fun _ => Except.ok ())
            []).calls
    ∧ (watcherLoop (fun _ => Except.error "boom") (fun _ => Except.ok ())
        (Msg.fsEvent ⟨Op.create, "f1"⟩ :: [])).log =
        (processEvent (fun _ => Except.error "boom") (fun _ => Except.ok ())
          ⟨Op.create, "f1"⟩).2 ++
          (watcherLoop (fun _ => Except.error "boom") (fun _ => Except.ok ())
            []).log
    ∧ (watcherLoop (fun _ => Except.error "boom") (fun _ => Except.ok ())
        (Msg.fsEvent ⟨Op.create, "f1"⟩ :: [])).closed =
        (watcherLoop (fun _ => Except.error "boom") (fun _ => Except.ok ())
          []).closed :=
  claim_C6_handler_error_nonfatal (fun _ => Except.error "boom")
    (fun _ => Except.ok ()) ⟨Op.create, "f1"⟩ "boom" []
    (Or.inl ⟨Or.inl rfl, rfl⟩)

/-- Claim C7: `New` starts the background task exactly when it returns a nil
error, and when creating the fsnotify watcher fails or adding the path fails
it returns that error with no background task started. -/
theorem claim_C7_new_construction {W H E : Type} (newWatcher : Except E W)
    (addPath : W → Except E Unit) (mkHandle : W → H) :
    (((New newWatcher addPath mkHandle).2 = true) ↔
      ∃ hdl, (New newWatcher addPath mkHandle).1 = Except.ok hdl)
    ∧ (∀ e, newWatcher = Except.error e →
        New newWatcher addPath mkHandle = (Except.error e, false))
    ∧ (∀ w e, newWatcher = Except.ok w → addPath w = Except.error e →
        New newWatcher addPath mkHandle = (Except.error e, false)) := by
  refine ⟨?_, ?_, ?_⟩
  · cases newWatcher with
    | error e => simp [New]
    | ok w =>
        cases hadd : addPath w with
        | error e => simp [New, hadd]
        | ok u => simp [New, hadd]
  · intro e he
    subst he
    rfl
  · intro w e hw ha
    subst hw
    simp [New, ha]

/-- Witness for C7: a failing watcher construction and a failing path add,
both with no background task. -/
theorem claim_C7_witness :
    New (Except.error "boom") (fun _ : Unit => Except.ok ())
        (fun _ : Unit => ()) = (Except.error "boom", false)
    ∧ New (Except.ok ()) (fun _ : Unit => Except.error "bad path")
        (fun _ : Unit => ()) = (Except.error "bad path", false) :=
  ⟨(claim_C7_new_construction (Except.error "boom") (fun _ => Except.ok ())
      (fun _ => ())).2.1 "boom" rfl,
    (claim_C7_new_construction (Except.ok ()) (fun _ => Except.error "bad path")
      (fun _ => ())).2.2 () "bad path" rfl rfl⟩

/-- Claim C8: once the loop receives the cancellation signal it closes the
subscription and terminates with no handler invocation for any further message
and nothing logged; and an event received before cancellation is fully
processed — its handler invocations all happen — because cancellation is only
observed at the next loop iteration. -/
theorem claim_C8_cancellation (onCreate onRemove : HandlerFn) (ev : Event)
    (rest : List Msg) :
    watcherLoop onCreate onRemove (Msg.ctxDone :: rest) =
      ⟨[], [], true⟩
    ∧ (watcherLoop onCreate onRemove
        (Msg.fsEvent ev :: Msg.ctxDone :: rest)).calls =
        (processEvent onCreate onRemove ev).1
    ∧ (watcherLoop onCreate onRemove
        (Msg.fsEvent ev :: Msg.ctxDone :: rest)).closed = true := by
  refine ⟨rfl, ?_, rfl⟩
  simp [watcherLoop]

end Directorywatcher


namespace Secrets

/-- A concrete parse function used only to witness the parser claim: parses a
positive number, fails on zero. -/
def demoParse : Nat → Except String Nat :=
  fun n => if n = 0 then Except.error "empty" else Except.ok n

/-- A concrete handler used only to witness the parser claim: records the
value it was invoked on. -/
def demoHandler : SecretHandlerFunc Nat Nat := fun s => [s]

/-- Claim C2 (code bug evidence): `getProvider` on the empty provider string
returns the unknown-provider error instead of defaulting to vault, and
`InitFromConfig` produces the same result for any two provider strings on the
same path — it never consults the provider, so no provider string can make
Store construction fail. -/
theorem claim_C2_provider_validation_bug :
    Config.getProvider ⟨"p", ""⟩ =
      Except.error
        "unknown secret provider , must be one of ['vault', 'vault_csi']"
    ∧ ∀ (E S : Type) (newStore : String → Except E S) (path prov1 prov2 : String),
        InitFromConfig newStore ⟨path, prov1⟩ =
          InitFromConfig newStore ⟨path, prov2⟩ :=
  ⟨rfl, fun _ _ _ _ _ _ => rfl⟩

/-- Claim C3: the store's parser invokes the middleware chain exactly when the
parse succeeds — a failed parse returns the parse error with the chain never
invoked (empty effect trace), and a successful parse returns the new value
after invoking the chain on exactly that value. -/
theorem claim_C3_parser_chain_iff_parse_ok {I S E Err : Type}
    (newSecrets : I → Except Err S) (handler : SecretHandlerFunc S E) (r : I) :
    (∀ e, newSecrets r = Except.error e →
      parser newSecrets handler r = (Except.error e, []))
    ∧ (∀ s, newSecrets r = Except.ok s →
      parser newSecrets handler r = (Except.ok s, handler s)) := by
  constructor
  · intro e he
    simp [parser, he]
  · intro s hs
    simp [parser, hs]

/-- Witness for C3 at a concrete parse function: a failing parse fires no
chain effect, a successful one fires the chain on the parsed value. -/
theorem claim_C3_witness :
    parser demoParse demoHandler 0 = (Except.error "empty", [])
    ∧ parser demoParse demoHandler 2 = (Except.ok 2, demoHandler 2) :=
  ⟨(claim_C3_parser_chain_iff_parse_ok demoParse demoHandler 0).1 "empty" rfl,
    (claim_C3_parser_chain_iff_parse_ok demoParse demoHandler 2).2 2 rfl⟩

/-- Claim C4: registration folds each middleware around the chain built so
far — registering across two calls concatenates, a middleware registered last
wraps the whole earlier chain, and the chain built over `nop` from
`m_1 .. m_n` is `m_n (m_{n-1} (... m_1 (nop)))` (the spec's formula, written
as a right fold over the reversed registration order). -/
theorem claim_C4_chain_composition_order {S E : Type}
    (ms ms2 : List (SecretMiddleware S E)) (m : SecretMiddleware S E)
    (h : SecretHandlerFunc S E) :
    secretHandler (secretHandler h ms) ms2 = secretHandler h (ms ++ ms2)
    ∧ secretHandler h (ms ++ [m]) = m (secretHandler h ms)
    ∧ secretHandler nopSecretHandlerFunc ms =
        List.foldr (fun mw hh => mw hh) nopSecretHandlerFunc ms.reverse := by
  refine ⟨?_, ?_, ?_⟩
  · simp [secretHandler, List.foldl_append]
  · simp [secretHandler, List.foldl_append]
  · simp [secretHandler, List.foldr_reverse]

/-- Claim C5: `AddMiddlewares` extends the chain with the given middlewares
wrapped around all previously registered ones, leaves the snapshot untouched,
and immediately invokes the new chain on the current snapshot — the effect
trace of the call is exactly the new chain applied to the snapshot, with no
filesystem event involved. -/
theorem claim_C5_add_middlewares_replay {S E : Type} (st : StoreModel S E)
    (ms : List (SecretMiddleware S E)) :
    (AddMiddlewares st ms).2 =
      (secretHandler st.secretHandlerFunc ms) st.snapshot
    ∧ (AddMiddlewares st ms).1.secretHandlerFunc =
        secretHandler st.secretHandlerFunc ms
    ∧ (AddMiddlewares st ms).1.snapshot = st.snapshot :=
  ⟨rfl, rfl, rfl⟩

/-- Claim C9 counterexample: on the CSI store, `GetSimpleSecret` at a concrete
path does not return a caller-facing error — it panics with "implement me",
crashing the process. -/
theorem claim_C9_counterexample :
    (vaultCsiGetSimpleSecret "secret/foo").isErr = false
    ∧ vaultCsiGetSimpleSecret "secret/foo" =
        OpOutcome.panicked "implement me" :=
  ⟨rfl, rfl⟩

/-- Claim C9 amended: every unsupported operation of the CSI store
(`AddMiddlewares`, `GetSimpleSecret`, `GetVersionedSecret`,
`GetCredentialSecret`, `GetVault`) panics with "implement me" instead of
returning a caller-facing error. -/
theorem claim_C9_csi_ops_panic (p : String) {S E : Type}
    (ms : List (SecretMiddleware S E)) :
    vaultCsiAddMiddlewares S E ms = OpOutcome.panicked "implement me"
    ∧ vaultCsiGetSimpleSecret p = OpOutcome.panicked "implement me"
    ∧ vaultCsiGetVersionedSecret p = OpOutcome.panicked "implement me"
    ∧ vaultCsiGetCredentialSecret p = OpOutcome.panicked "implement me"
    ∧ vaultCsiGetVault = OpOutcome.panicked "implement me"
    ∧ (vaultCsiGetSimpleSecret p).isErr = false :=
  ⟨rfl, rfl, rfl, rfl, rfl, rfl⟩

/-- Claim C10: `AddMiddlewares` with no middlewares leaves the store state
(chain and snapshot) unchanged yet still immediately invokes the existing
chain on the current snapshot — the replay is unconditional. -/
theorem claim_C10_empty_add_middlewares {S E : Type} (st : StoreModel S E) :
    (AddMiddlewares st []).1 = st
    ∧ (AddMiddlewares st []).2 = st.secretHandlerFunc st.snapshot :=
  ⟨rfl, rfl⟩

end Secrets